import Mathlib

/-!
Verification of the conversion-request orchestrator of a PDF-to-DOCX chat
bot (source: `src/bot.py`).  The embedding models the two functions that
carry the orchestration logic:

* `convert_pdf_to_docx` (bot.py lines 53-76): scratch-file lifecycle around
  the opaque conversion engine;
* `handle_pdf` (bot.py lines 79-128): the per-request handler, modelled as a
  function from the request data and an environment of fallible transport /
  engine operations to the list of performed actions plus the handler's
  final control outcome (normal return, or an escaping exception).

Filenames are lists of characters; Python string primitives used by the
source (`str.lower`, `str.endswith`, `str.replace`) are embedded below.
-/

namespace PdfBot

/-- Python exception payloads are modelled by their message string. -/
abbrev PyErr := String

/-- Python `str.lower()` (ASCII case folding, which covers every filename
the theorems touch). -/
def pyLower (s : List Char) : List Char := s.map Char.toLower

/-- The characters of the literal `'.pdf'`. -/
def dotPdfLower : List Char := ['.', 'p', 'd', 'f']

/-- The characters of the literal `'.PDF'`. -/
def dotPdfUpper : List Char := ['.', 'P', 'D', 'F']

/-- The characters of the literal `'.docx'`. -/
def dotDocx : List Char := ['.', 'd', 'o', 'c', 'x']

/-- bot.py line 85: `update.message.document.file_name.lower().endswith('.pdf')` —
the validator's format check. -/
def acceptsPdf (name : List Char) : Bool :=
  dotPdfLower.isSuffixOf (pyLower name)

/-- Worker for `pyReplace`: scans the string left to right, replacing each
non-overlapping occurrence of `o :: olds` by `new`, exactly as Python
`str.replace`.  The fuel argument (initially the string length, which always
suffices) makes the recursion structural. -/
def pyReplaceFuel (o : Char) (olds new : List Char) : Nat → List Char → List Char
  | _, [] => []
  | 0, l => l
  | fuel + 1, c :: rest =>
    if (o :: olds).isPrefixOf (c :: rest) then
      new ++ pyReplaceFuel o olds new fuel (rest.drop olds.length)
    else
      c :: pyReplaceFuel o olds new fuel rest

/-- Python `s.replace(old, new)` for a non-empty pattern (both patterns the
source uses are non-empty; for the empty pattern, which the source never
passes, the string is returned unchanged). -/
def pyReplace (s old new : List Char) : List Char :=
  match old with
  | [] => s
  | o :: olds => pyReplaceFuel o olds new s.length s

/-- bot.py line 111: the delivered output filename,
`file_name.replace('.pdf', '.docx').replace('.PDF', '.docx')`. -/
def outputName (name : List Char) : List Char :=
  pyReplace (pyReplace name dotPdfLower dotDocx) dotPdfUpper dotDocx

/-- Whether `pat` occurs as a contiguous block anywhere in the string
(Python `pat in s`, for non-empty `pat`). -/
def subOccurs (pat : List Char) : List Char → Bool
  | [] => false
  | c :: rest => pat.isPrefixOf (c :: rest) || subOccurs pat rest

/-- The eight casings of the '.pdf' suffix, one per choice of letter
case. -/
def pdfCasing (b1 b2 b3 : Bool) : List Char :=
  ['.', if b1 then 'P' else 'p', if b2 then 'D' else 'd', if b3 then 'F' else 'f']

/-! ## Scratch-file lifecycle (`convert_pdf_to_docx`, bot.py lines 53-76) -/

/-- Existence of the two scratch files a conversion uses: the input
temporary (`pdf_path`, suffix `.pdf`) and the derived output path
(`docx_path`). -/
structure FS where
  pdfExists : Bool
  docxExists : Bool
deriving DecidableEq

/-- bot.py line 71-72: `if os.path.exists(pdf_path): os.unlink(pdf_path)`. -/
def unlinkPdfIfExists (fs : FS) : FS :=
  if fs.pdfExists then ⟨false, fs.docxExists⟩ else fs

/-- bot.py line 73-74: `if os.path.exists(docx_path): os.unlink(docx_path)`. -/
def unlinkDocxIfExists (fs : FS) : FS :=
  if fs.docxExists then ⟨fs.pdfExists, false⟩ else fs

/-- The `finally` block of `convert_pdf_to_docx` (bot.py lines 69-74). -/
def cleanupScratch (fs : FS) : FS :=
  unlinkDocxIfExists (unlinkPdfIfExists fs)

/-- Outcome of the opaque conversion engine run inside the `try` block
(bot.py lines 62-67): success with the produced bytes, failure before any
output file exists (e.g. `Converter(pdf_path)` or `cv.convert` raising
early), or failure after the output file was created (e.g. `cv.close()` or
the read-back raising). -/
inductive EngineResult
  | ok (bytes : List Nat)
  | failNoOutput (e : PyErr)
  | failWithOutput (e : PyErr)
deriving DecidableEq

/-- bot.py lines 53-76.  The input temporary is created and written first
(`pdfExists := true`); the engine then runs inside `try`; the `finally`
block removes whichever scratch files exist; the function returns the bytes
or re-raises the engine's exception. -/
def convert_pdf_to_docx (eng : EngineResult) : Except PyErr (List Nat) × FS :=
  let fsAfterWrite : FS := ⟨true, false⟩
  match eng with
  | .ok bytes => (.ok bytes, cleanupScratch ⟨fsAfterWrite.pdfExists, true⟩)
  | .failNoOutput e => (.error e, cleanupScratch fsAfterWrite)
  | .failWithOutput e => (.error e, cleanupScratch ⟨fsAfterWrite.pdfExists, true⟩)

/-! ## The request handler (`handle_pdf`, bot.py lines 79-128) -/

/-- The user-visible text messages the handler can send or edit, one per
call site in `handle_pdf`. -/
inductive MsgKind
  | wrongFormat
  | tooLarge
  | processing
  | converting
  | complete
  | genericError
deriving DecidableEq

/-- One observable action of the handler, in program order, with the flag
recording whether the transport/engine call completed without raising. -/
inductive Action
  | getFile (ok : Bool)
  | replyText (k : MsgKind) (ok : Bool)
  | editText (k : MsgKind) (ok : Bool)
  | download (ok : Bool)
  | convertAct (fs : FS) (ok : Bool)
  | sendDocument (name : List Char) (ok : Bool)
  | deleteStatus (ok : Bool)
deriving DecidableEq

/-- The data of one inbound document event that `handle_pdf` reads:
`update.message.document.file_name` and `.file_size`. -/
structure Doc where
  file_name : List Char
  file_size : Nat
deriving DecidableEq

/-- The environment of fallible external operations `handle_pdf` performs,
one field per call site, each either returning or raising. -/
structure Env where
  getFile : Except PyErr Unit
  replyWrongFormat : Except PyErr Unit
  replyTooLarge : Except PyErr Unit
  replyProcessing : Except PyErr Unit
  download : Except PyErr (List Nat)
  editConverting : Except PyErr Unit
  engine : EngineResult
  editComplete : Except PyErr Unit
  replyDocument : Except PyErr Unit
  deleteProcessing : Except PyErr Unit
  replyGenericError : Except PyErr Unit

/-- The `try` block of `handle_pdf` (bot.py lines 80-118), returning the
performed actions and either a normal return or the raised exception that
the `except` clause will catch. -/
def tryBody (d : Doc) (env : Env) : List Action × Except PyErr Unit :=
  match env.getFile with
  | .error e => ([.getFile false], .error e)
  | .ok _ =>
    if acceptsPdf d.file_name = false then
      match env.replyWrongFormat with
      | .ok _ => ([.getFile true, .replyText .wrongFormat true], .ok ())
      | .error e => ([.getFile true, .replyText .wrongFormat false], .error e)
    else if d.file_size > 19 * 1024 * 1024 then
      match env.replyTooLarge with
      | .ok _ => ([.getFile true, .replyText .tooLarge true], .ok ())
      | .error e => ([.getFile true, .replyText .tooLarge false], .error e)
    else
      match env.replyProcessing with
      | .error e => ([.getFile true, .replyText .processing false], .error e)
      | .ok _ =>
        match env.download with
        | .error e =>
          ([.getFile true, .replyText .processing true, .download false], .error e)
        | .ok _ =>
          match env.editConverting with
          | .error e =>
            ([.getFile true, .replyText .processing true, .download true,
              .editText .converting false], .error e)
          | .ok _ =>
            match convert_pdf_to_docx env.engine with
            | (.error e, fs) =>
              ([.getFile true, .replyText .processing true, .download true,
                .editText .converting true, .convertAct fs false], .error e)
            | (.ok _, fs) =>
              match env.editComplete with
              | .error e =>
                ([.getFile true, .replyText .processing true, .download true,
                  .editText .converting true, .convertAct fs true,
                  .editText .complete false], .error e)
              | .ok _ =>
                match env.replyDocument with
                | .error e =>
                  ([.getFile true, .replyText .processing true, .download true,
                    .editText .converting true, .convertAct fs true,
                    .editText .complete true,
                    .sendDocument (outputName d.file_name) false], .error e)
                | .ok _ =>
                  match env.deleteProcessing with
                  | .error e =>
                    ([.getFile true, .replyText .processing true, .download true,
                      .editText .converting true, .convertAct fs true,
                      .editText .complete true,
                      .sendDocument (outputName d.file_name) true,
                      .deleteStatus false], .error e)
                  | .ok _ =>
                    ([.getFile true, .replyText .processing true, .download true,
                      .editText .converting true, .convertAct fs true,
                      .editText .complete true,
                      .sendDocument (outputName d.file_name) true,
                      .deleteStatus true], .ok ())

/-- bot.py lines 79-128: the whole handler.  An exception raised in the
`try` block reaches the `except Exception` clause (lines 120-128), which
sends the generic error message; if that send itself raises, the new
exception escapes the handler. -/
def handle_pdf (d : Doc) (env : Env) : List Action × Except PyErr Unit :=
  match tryBody d env with
  | (tr, .ok _) => (tr, .ok ())
  | (tr, .error _) =>
    match env.replyGenericError with
    | .ok _ => (tr ++ [.replyText .genericError true], .ok ())
    | .error e2 => (tr ++ [.replyText .genericError false], .error e2)

/-! ## Trace measurements -/

/-- Message kinds that announce a failure outcome to the user. -/
def failureKind : MsgKind → Bool
  | .wrongFormat => true
  | .tooLarge => true
  | .genericError => true
  | _ => false

/-- Message kinds that report progress of an accepted request. -/
def progressKind : MsgKind → Bool
  | .processing => true
  | .converting => true
  | .complete => true
  | _ => false

/-- Number of failure messages that actually reached the user. -/
def visibleFailureCount (tr : List Action) : Nat :=
  (tr.filter fun a =>
    match a with
    | .replyText k true => failureKind k
    | _ => false).length

/-- Number of successful document deliveries. -/
def successDeliveryCount (tr : List Action) : Nat :=
  (tr.filter fun a =>
    match a with
    | .sendDocument _ true => true
    | _ => false).length

/-- The progress events that actually reached the user, kept in order and
keeping whether each was a fresh message or an edit of the status message. -/
def visibleProgress (tr : List Action) : List Action :=
  tr.filter fun a =>
    match a with
    | .replyText k true => progressKind k
    | .editText k true => progressKind k
    | _ => false

/-! ## Concrete fixtures -/

/-- A well-formed small request, `report.pdf` of 1000 bytes. -/
def docReport : Doc := ⟨['r', 'e', 'p', 'o', 'r', 't', '.', 'p', 'd', 'f'], 1000⟩

/-- A request whose filename has the wrong extension and whose size also
exceeds the limit. -/
def docBadBoth : Doc := ⟨['x', '.', 't', 'x', 't'], 30 * 1024 * 1024⟩

/-- Every external operation succeeds. -/
def envAllOk : Env :=
  ⟨.ok (), .ok (), .ok (), .ok (), .ok [], .ok (), .ok [], .ok (), .ok (), .ok (), .ok ()⟩

/-- Everything succeeds except deleting the status message at the very end. -/
def envDeleteFails : Env :=
  ⟨.ok (), .ok (), .ok (), .ok (), .ok [], .ok (), .ok [], .ok (), .ok (),
    .error "delete failed", .ok ()⟩

/-- The transport get-file call fails, and the error-report send fails too. -/
def envEscape : Env :=
  ⟨.error "boom", .ok (), .ok (), .ok (), .ok [], .ok (), .ok [], .ok (), .ok (),
    .ok (), .error "net down"⟩

/-- The transport get-file call fails; everything else would succeed. -/
def envGetFileFails : Env :=
  ⟨.error "boom", .ok (), .ok (), .ok (), .ok [], .ok (), .ok [], .ok (), .ok (),
    .ok (), .ok ()⟩

/-! ## Control-flow characterization of the handler

The traces below name the action list of each exit path of the `try` block;
`handle_cases` states that every run of `handle_pdf` is one of these paths. -/

/-- Trace when `get_file` raises (bot.py line 82). -/
def trGetFileFail : List Action := [.getFile false]

/-- Trace of the wrong-format rejection (bot.py lines 85-87). -/
def trWrongFormat (b : Bool) : List Action :=
  [.getFile true, .replyText .wrongFormat b]

/-- Trace of the too-large rejection (bot.py lines 90-92). -/
def trTooLarge (b : Bool) : List Action :=
  [.getFile true, .replyText .tooLarge b]

/-- Trace when sending the processing status raises (bot.py line 95). -/
def trProcessingFail : List Action :=
  [.getFile true, .replyText .processing false]

/-- Trace when the content download raises (bot.py line 98). -/
def trDownloadFail : List Action :=
  [.getFile true, .replyText .processing true, .download false]

/-- Trace when editing the status to converting raises (bot.py line 101). -/
def trEditConvFail : List Action :=
  [.getFile true, .replyText .processing true, .download true,
    .editText .converting false]

/-- Trace when the conversion engine raises (bot.py line 105); the scratch
state recorded is the one left by the `finally` block. -/
def trConvertFail : List Action :=
  [.getFile true, .replyText .processing true, .download true,
    .editText .converting true, .convertAct ⟨false, false⟩ false]

/-- Trace when editing the status to complete raises (bot.py line 107). -/
def trEditCompFail : List Action :=
  [.getFile true, .replyText .processing true, .download true,
    .editText .converting true, .convertAct ⟨false, false⟩ true,
    .editText .complete false]

/-- Trace when the document reply raises (bot.py line 113). -/
def trSendDocFail (name : List Char) : List Action :=
  [.getFile true, .replyText .processing true, .download true,
    .editText .converting true, .convertAct ⟨false, false⟩ true,
    .editText .complete true, .sendDocument name false]

/-- Trace when deleting the status message raises (bot.py line 118), after
the converted document was already delivered. -/
def trDeleteFail (name : List Char) : List Action :=
  [.getFile true, .replyText .processing true, .download true,
    .editText .converting true, .convertAct ⟨false, false⟩ true,
    .editText .complete true, .sendDocument name true, .deleteStatus false]

/-- Trace of the fully successful run (bot.py lines 82-118). -/
def trSuccess (name : List Char) : List Action :=
  [.getFile true, .replyText .processing true, .download true,
    .editText .converting true, .convertAct ⟨false, false⟩ true,
    .editText .complete true, .sendDocument name true, .deleteStatus true]

/-- After the `try` block raised with trace `tr`, the `except` clause sends
the generic error message; the handler returns normally if that send
succeeds and escapes with the send's own exception otherwise. -/
def handledErr (d : Doc) (env : Env) (tr : List Action) : Prop :=
  (env.replyGenericError = Except.ok () ∧
    handle_pdf d env = (tr ++ [.replyText .genericError true], Except.ok ()))
  ∨ (∃ e2, env.replyGenericError = Except.error e2 ∧
      handle_pdf d env = (tr ++ [.replyText .genericError false], Except.error e2))

/-! ## Liveness endpoint (bot.py lines 152-166) -/

/-- The response-building steps of `BaseHTTPRequestHandler`. -/
inductive HttpStep
  | sendResponse (code : Nat)
  | sendHeader (name value : String)
  | endHeaders
  | writeBody (body : String)
deriving DecidableEq

/-- bot.py lines 153-157: `HealthHandler.do_GET` answers every GET request,
whatever its path, with status 200, a text/plain content type and the fixed
body. -/
def do_GET (_path : String) : List HttpStep :=
  [.sendResponse 200, .sendHeader "Content-type" "text/plain", .endHeaders,
    .writeBody "Bot is alive!"]

/-- One decimal digit of Python `int(...)`. -/
def pyIntDigit (c : Char) : Option Nat :=
  if '0' ≤ c ∧ c ≤ '9' then some (c.toNat - '0'.toNat) else none

/-- Accumulating scan of `pyInt`. -/
def pyIntAux : List Char → Nat → Option Nat
  | [], acc => some acc
  | c :: rest, acc =>
    match pyIntDigit c with
    | some v => pyIntAux rest (acc * 10 + v)
    | none => none

/-- Python `int(s)` restricted to plain decimal digit strings, the shapes a
port variable takes; any other string raises ValueError. -/
def pyInt (s : List Char) : Option Nat :=
  match s with
  | [] => none
  | _ => pyIntAux s 0

/-- bot.py line 163: `port = int(os.environ.get("PORT", 10000))` — the
port comes from the PORT environment variable when set and parseable, and
defaults to 10000. -/
def healthPort (envPORT : Option (List Char)) : Except PyErr Nat :=
  match envPORT with
  | none => .ok 10000
  | some s =>
    match pyInt s with
    | some n => .ok n
    | none => .error "invalid literal for int() with base 10"

/-- The request passed validation: the transport lookup succeeded, the
filename carries the pdf extension, and the size is within the limit. -/
def Accepted (d : Doc) (env : Env) : Prop :=
  env.getFile = Except.ok () ∧ acceptsPdf d.file_name = true
    ∧ ¬ d.file_size > 19 * 1024 * 1024

/-! ## Sanity checks on concrete runs -/

example : acceptsPdf ['r', '.', 'P', 'D', 'F'] = true := by decide
example : acceptsPdf ['r', '.', 'P', 'd', 'f'] = true := by decide
example : acceptsPdf ['r', '.', 't', 'x', 't'] = false := by decide
example : outputName ['a', '.', 'p', 'd', 'f'] = ['a', '.', 'd', 'o', 'c', 'x'] := by decide
example : outputName ['a', '.', 'P', 'd', 'f'] = ['a', '.', 'P', 'd', 'f'] := by decide
example : pyReplace ['a', 'a', 'a'] ['a', 'a'] ['b'] = ['b', 'a'] := by decide

example :
    handle_pdf docReport envAllOk =
      ([.getFile true, .replyText .processing true, .download true,
        .editText .converting true, .convertAct ⟨false, false⟩ true,
        .editText .complete true,
        .sendDocument ['r', 'e', 'p', 'o', 'r', 't', '.', 'd', 'o', 'c', 'x'] true,
        .deleteStatus true], .ok ()) := rfl

example :
    handle_pdf docReport envGetFileFails =
      ([.getFile false, .replyText .genericError true], .ok ()) := rfl

theorem handledErr_of_tryBody (d : Doc) (env : Env) (tr : List Action) (e : PyErr)
    (h : tryBody d env = (tr, Except.error e)) : handledErr d env tr := by
  unfold handledErr handle_pdf
  rw [h]
  cases hge : env.replyGenericError with
  | ok u => exact Or.inl ⟨rfl, by simp⟩
  | error e2 => exact Or.inr ⟨e2, rfl, by simp⟩

theorem handle_of_tryBody_ok (d : Doc) (env : Env) (tr : List Action)
    (h : tryBody d env = (tr, Except.ok ())) : handle_pdf d env = (tr, Except.ok ()) := by
  unfold handle_pdf
  rw [h]

/-- Exactly one of the thirteen control-flow paths of `handle_pdf` happens,
each pinned to the environment condition that selects it. -/
theorem handle_cases (d : Doc) (env : Env) :
    (∃ e, env.getFile = Except.error e ∧ handledErr d env trGetFileFail)
  ∨ (env.getFile = Except.ok () ∧ acceptsPdf d.file_name = false ∧
      env.replyWrongFormat = Except.ok () ∧
      handle_pdf d env = (trWrongFormat true, Except.ok ()))
  ∨ (env.getFile = Except.ok () ∧ acceptsPdf d.file_name = false ∧
      (∃ e, env.replyWrongFormat = Except.error e) ∧
      handledErr d env (trWrongFormat false))
  ∨ (env.getFile = Except.ok () ∧ acceptsPdf d.file_name = true ∧
      d.file_size > 19 * 1024 * 1024 ∧ env.replyTooLarge = Except.ok () ∧
      handle_pdf d env = (trTooLarge true, Except.ok ()))
  ∨ (env.getFile = Except.ok () ∧ acceptsPdf d.file_name = true ∧
      d.file_size > 19 * 1024 * 1024 ∧ (∃ e, env.replyTooLarge = Except.error e) ∧
      handledErr d env (trTooLarge false))
  ∨ (Accepted d env ∧ (∃ e, env.replyProcessing = Except.error e) ∧
      handledErr d env trProcessingFail)
  ∨ (Accepted d env ∧ (∃ e, env.download = Except.error e) ∧
      handledErr d env trDownloadFail)
  ∨ (Accepted d env ∧ (∃ e, env.editConverting = Except.error e) ∧
      handledErr d env trEditConvFail)
  ∨ (Accepted d env ∧
      (∃ e, env.engine = EngineResult.failNoOutput e ∨
        env.engine = EngineResult.failWithOutput e) ∧
      handledErr d env trConvertFail)
  ∨ (Accepted d env ∧ (∃ e, env.editComplete = Except.error e) ∧
      handledErr d env trEditCompFail)
  ∨ (Accepted d env ∧ (∃ e, env.replyDocument = Except.error e) ∧
      handledErr d env (trSendDocFail (outputName d.file_name)))
  ∨ (Accepted d env ∧ (∃ e, env.deleteProcessing = Except.error e) ∧
      handledErr d env (trDeleteFail (outputName d.file_name)))
  ∨ (Accepted d env ∧
      handle_pdf d env = (trSuccess (outputName d.file_name), Except.ok ())) := by
  cases hgf : env.getFile with
  | error e =>
    refine Or.inl ⟨e, rfl, handledErr_of_tryBody d env _ e ?_⟩
    simp [tryBody, hgf, trGetFileFail]
  | ok u =>
    cases u
    by_cases hA : acceptsPdf d.file_name = false
    · cases hrwf : env.replyWrongFormat with
      | ok v =>
        cases v
        refine Or.inr (Or.inl ⟨rfl, hA, rfl, handle_of_tryBody_ok d env _ ?_⟩)
        simp [tryBody, hgf, hA, hrwf, trWrongFormat]
      | error e =>
        refine Or.inr (Or.inr (Or.inl
          ⟨rfl, hA, ⟨e, rfl⟩, handledErr_of_tryBody d env _ e ?_⟩))
        simp [tryBody, hgf, hA, hrwf, trWrongFormat]
    · have hA2 : acceptsPdf d.file_name = true := by
        cases hx : acceptsPdf d.file_name
        · exact absurd hx hA
        · rfl
      by_cases hS : d.file_size > 19 * 1024 * 1024
      · cases hrtl : env.replyTooLarge with
        | ok v =>
          cases v
          refine Or.inr (Or.inr (Or.inr (Or.inl
            ⟨rfl, hA2, hS, rfl, handle_of_tryBody_ok d env _ ?_⟩)))
          simp [tryBody, hgf, hA2, hS, hrtl, trTooLarge]
        | error e =>
          refine Or.inr (Or.inr (Or.inr (Or.inr (Or.inl
            ⟨rfl, hA2, hS, ⟨e, rfl⟩, handledErr_of_tryBody d env _ e ?_⟩))))
          simp [tryBody, hgf, hA2, hS, hrtl, trTooLarge]
      · have hAcc : Accepted d env := ⟨hgf, hA2, hS⟩
        cases hrp : env.replyProcessing with
        | error e =>
          refine Or.inr (Or.inr (Or.inr (Or.inr (Or.inr (Or.inl
            ⟨hAcc, ⟨e, rfl⟩, handledErr_of_tryBody d env _ e ?_⟩)))))
          simp [tryBody, hgf, hA2, hS, hrp, trProcessingFail]
        | ok v =>
          cases v
          cases hdl : env.download with
          | error e =>
            refine Or.inr (Or.inr (Or.inr (Or.inr (Or.inr (Or.inr (Or.inl
              ⟨hAcc, ⟨e, rfl⟩, handledErr_of_tryBody d env _ e ?_⟩))))))
            simp [tryBody, hgf, hA2, hS, hrp, hdl, trDownloadFail]
          | ok bs =>
            cases hec : env.editConverting with
            | error e =>
              refine Or.inr (Or.inr (Or.inr (Or.inr (Or.inr (Or.inr (Or.inr (Or.inl
                ⟨hAcc, ⟨e, rfl⟩, handledErr_of_tryBody d env _ e ?_⟩)))))))
              simp [tryBody, hgf, hA2, hS, hrp, hdl, hec, trEditConvFail]
            | ok w =>
              cases w
              cases heng : env.engine with
              | failNoOutput e =>
                refine Or.inr (Or.inr (Or.inr (Or.inr (Or.inr (Or.inr (Or.inr
                  (Or.inr (Or.inl
                  ⟨hAcc, ⟨e, Or.inl rfl⟩, handledErr_of_tryBody d env _ e ?_⟩))))))))
                simp [tryBody, hgf, hA2, hS, hrp, hdl, hec, heng,
                  convert_pdf_to_docx, cleanupScratch, unlinkPdfIfExists,
                  unlinkDocxIfExists, trConvertFail]
              | failWithOutput e =>
                refine Or.inr (Or.inr (Or.inr (Or.inr (Or.inr (Or.inr (Or.inr
                  (Or.inr (Or.inl
                  ⟨hAcc, ⟨e, Or.inr rfl⟩, handledErr_of_tryBody d env _ e ?_⟩))))))))
                simp [tryBody, hgf, hA2, hS, hrp, hdl, hec, heng,
                  convert_pdf_to_docx, cleanupScratch, unlinkPdfIfExists,
                  unlinkDocxIfExists, trConvertFail]
              | ok bytes =>
                cases hecp : env.editComplete with
                | error e =>
                  refine Or.inr (Or.inr (Or.inr (Or.inr (Or.inr (Or.inr (Or.inr
                    (Or.inr (Or.inr (Or.inl
                    ⟨hAcc, ⟨e, rfl⟩, handledErr_of_tryBody d env _ e ?_⟩)))))))))
                  simp [tryBody, hgf, hA2, hS, hrp, hdl, hec, heng, hecp,
                    convert_pdf_to_docx, cleanupScratch, unlinkPdfIfExists,
                    unlinkDocxIfExists, trEditCompFail]
                | ok w2 =>
                  cases w2
                  cases hrd : env.replyDocument with
                  | error e =>
                    refine Or.inr (Or.inr (Or.inr (Or.inr (Or.inr (Or.inr (Or.inr
                      (Or.inr (Or.inr (Or.inr (Or.inl
                      ⟨hAcc, ⟨e, rfl⟩, handledErr_of_tryBody d env _ e ?_⟩))))))))))
                    simp [tryBody, hgf, hA2, hS, hrp, hdl, hec, heng, hecp, hrd,
                      convert_pdf_to_docx, cleanupScratch, unlinkPdfIfExists,
                      unlinkDocxIfExists, trSendDocFail]
                  | ok w3 =>
                    cases w3
                    cases hdp : env.deleteProcessing with
                    | error e =>
                      refine Or.inr (Or.inr (Or.inr (Or.inr (Or.inr (Or.inr
                        (Or.inr (Or.inr (Or.inr (Or.inr (Or.inr (Or.inl
                        ⟨hAcc, ⟨e, rfl⟩, handledErr_of_tryBody d env _ e ?_⟩)))))))))))
                      simp [tryBody, hgf, hA2, hS, hrp, hdl, hec, heng, hecp,
                        hrd, hdp, convert_pdf_to_docx, cleanupScratch,
                        unlinkPdfIfExists, unlinkDocxIfExists, trDeleteFail]
                    | ok w4 =>
                      cases w4
                      refine Or.inr (Or.inr (Or.inr (Or.inr (Or.inr (Or.inr
                        (Or.inr (Or.inr (Or.inr (Or.inr (Or.inr (Or.inr
                        ⟨hAcc, handle_of_tryBody_ok d env _ ?_⟩)))))))))))
                      simp [tryBody, hgf, hA2, hS, hrp, hdl, hec, heng, hecp,
                        hrd, hdp, convert_pdf_to_docx, cleanupScratch,
                        unlinkPdfIfExists, unlinkDocxIfExists, trSuccess]

theorem handledErr_trace (d : Doc) (env : Env) (tr : List Action)
    (h : handledErr d env tr) :
    (handle_pdf d env).1 = tr ++ [Action.replyText MsgKind.genericError true]
    ∨ (handle_pdf d env).1 = tr ++ [Action.replyText MsgKind.genericError false] := by
  rcases h with ⟨-, h⟩ | ⟨e2, -, h⟩
  · exact Or.inl (by rw [h])
  · exact Or.inr (by rw [h])

/-- Every trace of `handle_pdf` is one of the thirteen path traces, the ten
exceptional ones extended by the `except` clause's error-report attempt. -/
theorem handle_traces (d : Doc) (env : Env) :
    ∃ b : Bool,
      (handle_pdf d env).1 = trWrongFormat true
      ∨ (handle_pdf d env).1 = trTooLarge true
      ∨ (handle_pdf d env).1 = trSuccess (outputName d.file_name)
      ∨ (handle_pdf d env).1 = trGetFileFail ++ [Action.replyText MsgKind.genericError b]
      ∨ (handle_pdf d env).1 = trWrongFormat false ++ [Action.replyText MsgKind.genericError b]
      ∨ (handle_pdf d env).1 = trTooLarge false ++ [Action.replyText MsgKind.genericError b]
      ∨ (handle_pdf d env).1 = trProcessingFail ++ [Action.replyText MsgKind.genericError b]
      ∨ (handle_pdf d env).1 = trDownloadFail ++ [Action.replyText MsgKind.genericError b]
      ∨ (handle_pdf d env).1 = trEditConvFail ++ [Action.replyText MsgKind.genericError b]
      ∨ (handle_pdf d env).1 = trConvertFail ++ [Action.replyText MsgKind.genericError b]
      ∨ (handle_pdf d env).1 = trEditCompFail ++ [Action.replyText MsgKind.genericError b]
      ∨ (handle_pdf d env).1 =
          trSendDocFail (outputName d.file_name) ++ [Action.replyText MsgKind.genericError b]
      ∨ (handle_pdf d env).1 =
          trDeleteFail (outputName d.file_name) ++ [Action.replyText MsgKind.genericError b] := by
  rcases handle_cases d env with ⟨e, -, h⟩ | ⟨-, -, -, h⟩ | ⟨-, -, -, h⟩ | ⟨-, -, -, -, h⟩
    | ⟨-, -, -, -, h⟩ | ⟨-, -, h⟩ | ⟨-, -, h⟩ | ⟨-, -, h⟩ | ⟨-, -, h⟩ | ⟨-, -, h⟩
    | ⟨-, -, h⟩ | ⟨-, -, h⟩ | ⟨-, h⟩
  · rcases handledErr_trace d env _ h with h2 | h2
    · exact ⟨true, Or.inr (Or.inr (Or.inr (Or.inl h2)))⟩
    · exact ⟨false, Or.inr (Or.inr (Or.inr (Or.inl h2)))⟩
  · exact ⟨true, Or.inl (by rw [h])⟩
  · rcases handledErr_trace d env _ h with h2 | h2
    · exact ⟨true, Or.inr (Or.inr (Or.inr (Or.inr (Or.inl h2))))⟩
    · exact ⟨false, Or.inr (Or.inr (Or.inr (Or.inr (Or.inl h2))))⟩
  · exact ⟨true, Or.inr (Or.inl (by rw [h]))⟩
  · rcases handledErr_trace d env _ h with h2 | h2
    · exact ⟨true, Or.inr (Or.inr (Or.inr (Or.inr (Or.inr (Or.inl h2)))))⟩
    · exact ⟨false, Or.inr (Or.inr (Or.inr (Or.inr (Or.inr (Or.inl h2)))))⟩
  · rcases handledErr_trace d env _ h with h2 | h2
    · exact ⟨true, Or.inr (Or.inr (Or.inr (Or.inr (Or.inr (Or.inr (Or.inl h2))))))⟩
    · exact ⟨false, Or.inr (Or.inr (Or.inr (Or.inr (Or.inr (Or.inr (Or.inl h2))))))⟩
  · rcases handledErr_trace d env _ h with h2 | h2
    · exact ⟨true, Or.inr (Or.inr (Or.inr (Or.inr (Or.inr (Or.inr (Or.inr (Or.inl h2)))))))⟩
    · exact ⟨false, Or.inr (Or.inr (Or.inr (Or.inr (Or.inr (Or.inr (Or.inr (Or.inl h2)))))))⟩
  · rcases handledErr_trace d env _ h with h2 | h2
    · exact ⟨true, Or.inr (Or.inr (Or.inr (Or.inr (Or.inr (Or.inr (Or.inr (Or.inr
        (Or.inl h2))))))))⟩
    · exact ⟨false, Or.inr (Or.inr (Or.inr (Or.inr (Or.inr (Or.inr (Or.inr (Or.inr
        (Or.inl h2))))))))⟩
  · rcases handledErr_trace d env _ h with h2 | h2
    · exact ⟨true, Or.inr (Or.inr (Or.inr (Or.inr (Or.inr (Or.inr (Or.inr (Or.inr
        (Or.inr (Or.inl h2)))))))))⟩
    · exact ⟨false, Or.inr (Or.inr (Or.inr (Or.inr (Or.inr (Or.inr (Or.inr (Or.inr
        (Or.inr (Or.inl h2)))))))))⟩
  · rcases handledErr_trace d env _ h with h2 | h2
    · exact ⟨true, Or.inr (Or.inr (Or.inr (Or.inr (Or.inr (Or.inr (Or.inr (Or.inr
        (Or.inr (Or.inr (Or.inl h2))))))))))⟩
    · exact ⟨false, Or.inr (Or.inr (Or.inr (Or.inr (Or.inr (Or.inr (Or.inr (Or.inr
        (Or.inr (Or.inr (Or.inl h2))))))))))⟩
  · rcases handledErr_trace d env _ h with h2 | h2
    · exact ⟨true, Or.inr (Or.inr (Or.inr (Or.inr (Or.inr (Or.inr (Or.inr (Or.inr
        (Or.inr (Or.inr (Or.inr (Or.inl h2)))))))))))⟩
    · exact ⟨false, Or.inr (Or.inr (Or.inr (Or.inr (Or.inr (Or.inr (Or.inr (Or.inr
        (Or.inr (Or.inr (Or.inr (Or.inl h2)))))))))))⟩
  · rcases handledErr_trace d env _ h with h2 | h2
    · exact ⟨true, Or.inr (Or.inr (Or.inr (Or.inr (Or.inr (Or.inr (Or.inr (Or.inr
        (Or.inr (Or.inr (Or.inr (Or.inr h2)))))))))))⟩
    · exact ⟨false, Or.inr (Or.inr (Or.inr (Or.inr (Or.inr (Or.inr (Or.inr (Or.inr
        (Or.inr (Or.inr (Or.inr (Or.inr h2)))))))))))⟩
  · exact ⟨true, Or.inr (Or.inr (Or.inl (by rw [h])))⟩

/-! ## String lemmas -/

theorem isPrefixOf_self_append (p t : List Char) : p.isPrefixOf (p ++ t) = true := by
  induction p with
  | nil => simp [List.isPrefixOf]
  | cons a p ih => simp [List.isPrefixOf, ih]

theorem isSuffixOf_append_self (p x : List Char) : p.isSuffixOf (x ++ p) = true := by
  simp [List.isSuffixOf, List.reverse_append, isPrefixOf_self_append]

/-- A prefix match of `pat` on `u ++ v` that fits inside `u` is a prefix
match on `u`. -/
theorem isPrefixOf_append_left (pat : List Char) :
    ∀ (u v : List Char), pat.isPrefixOf (u ++ v) = true →
      pat.length ≤ u.length → pat.isPrefixOf u = true := by
  induction pat with
  | nil => intro u v _ _; simp [List.isPrefixOf]
  | cons p ps ih =>
    intro u v h hlen
    cases u with
    | nil => simp at hlen
    | cons a u2 =>
      rw [List.cons_append] at h
      simp only [List.isPrefixOf, Bool.and_eq_true] at h ⊢
      exact ⟨h.1, ih u2 v h.2 (by simpa using hlen)⟩

/-- A prefix match of `pat` on `u ++ v` that outruns `u` continues as a
prefix match of the rest of `pat` on `v`. -/
theorem isPrefixOf_append_drop (pat : List Char) :
    ∀ (u v : List Char), pat.isPrefixOf (u ++ v) = true →
      u.length < pat.length → (pat.drop u.length).isPrefixOf v = true := by
  induction pat with
  | nil => intro u v _ hlen; simp at hlen
  | cons p ps ih =>
    intro u v h hlen
    cases u with
    | nil => simpa using h
    | cons a u2 =>
      rw [List.cons_append] at h
      simp only [List.isPrefixOf, Bool.and_eq_true] at h
      simpa using ih u2 v h.2 (by simpa using hlen)

/-- A dot-led pattern whose tail has no dot cannot start matching inside
the part before a dot-led suffix and finish across the boundary: if it
fails on `c :: rest` alone, it also fails on `c :: rest ++ '.' :: t2`. -/
theorem isPrefixOf_cons_append_false (olds : List Char) (hdot : ('.' : Char) ∉ olds)
    (c : Char) (rest t2 : List Char)
    (hp : (('.' :: olds).isPrefixOf (c :: rest)) = false) :
    (('.' :: olds).isPrefixOf (c :: rest ++ '.' :: t2)) = false := by
  cases hx : (('.' :: olds).isPrefixOf (c :: rest ++ '.' :: t2)) with
  | false => rfl
  | true =>
    exfalso
    have hx2 : (('.' :: olds).isPrefixOf ((c :: rest) ++ '.' :: t2)) = true := by
      simpa using hx
    rcases Nat.lt_or_ge (c :: rest).length ('.' :: olds).length with hlt | hge
    · have h2 := isPrefixOf_append_drop ('.' :: olds) (c :: rest) ('.' :: t2) hx2 hlt
      rw [show ('.' :: olds).drop (c :: rest).length = olds.drop rest.length from by
        simp] at h2
      have hlen2 : rest.length < olds.length := by simpa using hlt
      have hne : olds.drop rest.length ≠ [] := by
        intro hnil
        have := List.drop_eq_nil_iff.mp hnil
        omega
      obtain ⟨x, xs, hxs⟩ := List.exists_cons_of_ne_nil hne
      rw [hxs] at h2
      simp only [List.isPrefixOf, Bool.and_eq_true, beq_iff_eq] at h2
      have hxmem : x ∈ olds :=
        List.drop_subset rest.length olds (hxs ▸ List.mem_cons_self x xs)
      rw [h2.1] at hxmem
      exact hdot hxmem
    · have h1 := isPrefixOf_append_left ('.' :: olds) (c :: rest) ('.' :: t2) hx2 hge
      rw [h1] at hp
      simp at hp

/-- A stem containing no occurrence of the dot-led pattern is copied
unchanged by the replacement scan of stem ++ dot-led suffix. -/
theorem pyReplaceFuel_skipSub (olds new : List Char) (hdot : ('.' : Char) ∉ olds)
    (t2 : List Char) :
    ∀ (stem : List Char) (fuel : Nat),
      subOccurs ('.' :: olds) stem = false →
      pyReplaceFuel '.' olds new (stem.length + fuel) (stem ++ '.' :: t2) =
        stem ++ pyReplaceFuel '.' olds new fuel ('.' :: t2) := by
  intro stem
  induction stem with
  | nil => intro fuel _; simp
  | cons c rest ih =>
    intro fuel hsub
    have hsub2 : (('.' :: olds).isPrefixOf (c :: rest)) = false
        ∧ subOccurs ('.' :: olds) rest = false := by
      simpa [subOccurs] using hsub
    have hpre := isPrefixOf_cons_append_false olds hdot c rest t2 hsub2.1
    rw [List.cons_append] at hpre
    have hlen : (c :: rest).length + fuel = (rest.length + fuel) + 1 := by
      simp [Nat.add_right_comm]
    rw [List.cons_append, hlen]
    simp only [pyReplaceFuel]
    rw [if_neg (fun hx => by rw [hx] at hpre; exact absurd hpre (by decide))]
    rw [ih fuel hsub2.2]
    simp

/-- One replacement pass over a dot-led string yields a dot-led string
(the replacement text '.docx' is itself dot-led). -/
theorem pyReplace_head_dot (old t2 : List Char) :
    ∃ t3, pyReplace ('.' :: t2) old dotDocx = '.' :: t3 := by
  cases old with
  | nil => exact ⟨t2, rfl⟩
  | cons o os =>
    simp only [pyReplace, List.length_cons, pyReplaceFuel]
    split
    · exact ⟨_, rfl⟩
    · exact ⟨_, rfl⟩

/-- The output-name derivation acts only on the dot-led suffix when the
stem contains neither '.pdf' nor '.PDF'. -/
theorem outputName_append (stem t2 : List Char)
    (h1 : subOccurs dotPdfLower stem = false)
    (h2 : subOccurs dotPdfUpper stem = false) :
    outputName (stem ++ '.' :: t2) = stem ++ outputName ('.' :: t2) := by
  unfold outputName
  have hs1 : pyReplace (stem ++ '.' :: t2) dotPdfLower dotDocx =
      stem ++ pyReplace ('.' :: t2) dotPdfLower dotDocx := by
    rw [show dotPdfLower = '.' :: ['p', 'd', 'f'] from rfl]
    simp only [pyReplace]
    rw [show (stem ++ '.' :: t2).length = stem.length + ('.' :: t2).length from by simp]
    exact pyReplaceFuel_skipSub ['p', 'd', 'f'] dotDocx (by decide) t2 stem
      ('.' :: t2).length (by simpa [dotPdfLower] using h1)
  rw [hs1]
  obtain ⟨t3, ht3⟩ := pyReplace_head_dot dotPdfLower t2
  rw [ht3]
  rw [show dotPdfUpper = '.' :: ['P', 'D', 'F'] from rfl]
  simp only [pyReplace]
  rw [show (stem ++ '.' :: t3).length = stem.length + ('.' :: t3).length from by simp]
  exact pyReplaceFuel_skipSub ['P', 'D', 'F'] dotDocx (by decide) t3 stem
    ('.' :: t3).length (by simpa [dotPdfUpper] using h2)

/-! ## Claim theorems -/

/-- Claim C1: for every request that acquires scratch storage, both the
input scratch file and the output scratch file are removed on every exit
path of the conversion step — engine success, engine error with or without
an output artifact — and the cleanup has already happened in every
conversion action recorded in a handler trace, hence before the converted
artifact is delivered to the transport. -/
theorem claim_C1 :
    (∀ eng : EngineResult,
      (convert_pdf_to_docx eng).2.pdfExists = false
      ∧ (convert_pdf_to_docx eng).2.docxExists = false)
    ∧ (∀ (d : Doc) (env : Env) (fs : FS) (b : Bool),
        Action.convertAct fs b ∈ (handle_pdf d env).1 →
        fs.pdfExists = false ∧ fs.docxExists = false) := by
  constructor
  · intro eng
    cases eng <;>
      simp [convert_pdf_to_docx, cleanupScratch, unlinkPdfIfExists, unlinkDocxIfExists]
  · intro d env fs b hmem
    rcases handle_traces d env with ⟨c, h | h | h | h | h | h | h | h | h | h | h | h | h⟩ <;>
      rw [h] at hmem <;>
      simp [trWrongFormat, trTooLarge, trSuccess, trGetFileFail, trProcessingFail,
        trDownloadFail, trEditConvFail, trConvertFail, trEditCompFail, trSendDocFail,
        trDeleteFail] at hmem <;>
      simp_all

theorem claim_C1_witness :
    (Action.convertAct ⟨false, false⟩ true ∈ (handle_pdf docReport envAllOk).1)
    ∧ ((⟨false, false⟩ : FS).pdfExists = false
        ∧ (⟨false, false⟩ : FS).docxExists = false) :=
  ⟨by decide, claim_C1.2 docReport envAllOk ⟨false, false⟩ true (by decide)⟩

/-- Claim C2 counterexample: the filename 'report.Pdf' is accepted by the
validator (case-insensitive extension check) yet the delivered output name
keeps the '.Pdf' suffix unchanged instead of becoming 'report.docx'. -/
theorem claim_C2_counterexample :
    acceptsPdf ['r', 'e', 'p', 'o', 'r', 't', '.', 'P', 'd', 'f'] = true
    ∧ outputName ['r', 'e', 'p', 'o', 'r', 't', '.', 'P', 'd', 'f'] =
        ['r', 'e', 'p', 'o', 'r', 't', '.', 'P', 'd', 'f']
    ∧ outputName ['r', 'e', 'p', 'o', 'r', 't', '.', 'P', 'd', 'f'] ≠
        ['r', 'e', 'p', 'o', 'r', 't', '.', 'd', 'o', 'c', 'x'] := by decide

/-- Claim C2 amended: for every filename stem ++ sfx where sfx is any
casing of '.pdf' and the stem contains no occurrence of the literal '.pdf'
or '.PDF' (the code replaces every occurrence, not only the suffix), the
validator accepts the filename; when sfx is spelled exactly '.pdf' or
exactly '.PDF' the delivered name is stem ++ '.docx'; for every other
casing of the suffix the filename is delivered unchanged. -/
theorem claim_C2_amended (stem : List Char)
    (h1 : subOccurs dotPdfLower stem = false)
    (h2 : subOccurs dotPdfUpper stem = false) (b1 b2 b3 : Bool) :
    acceptsPdf (stem ++ pdfCasing b1 b2 b3) = true
    ∧ (pdfCasing b1 b2 b3 = dotPdfLower ∨ pdfCasing b1 b2 b3 = dotPdfUpper →
        outputName (stem ++ pdfCasing b1 b2 b3) = stem ++ dotDocx)
    ∧ (pdfCasing b1 b2 b3 ≠ dotPdfLower → pdfCasing b1 b2 b3 ≠ dotPdfUpper →
        outputName (stem ++ pdfCasing b1 b2 b3) = stem ++ pdfCasing b1 b2 b3) := by
  have hout : outputName (stem ++ pdfCasing b1 b2 b3) =
      stem ++ outputName (pdfCasing b1 b2 b3) := by
    cases b1 <;> cases b2 <;> cases b3 <;> exact outputName_append stem _ h1 h2
  refine ⟨?_, ?_, ?_⟩
  · unfold acceptsPdf pyLower
    rw [List.map_append,
      show List.map Char.toLower (pdfCasing b1 b2 b3) = dotPdfLower from by
        cases b1 <;> cases b2 <;> cases b3 <;> decide]
    exact isSuffixOf_append_self dotPdfLower (List.map Char.toLower stem)
  · intro h
    rw [hout]
    rcases h with h | h <;> rw [h] <;> exact congrArg (stem ++ ·) (by decide)
  · intro hne1 hne2
    rw [hout]
    cases b1 <;> cases b2 <;> cases b3 <;>
      first
      | exact absurd (by decide) hne1
      | exact absurd (by decide) hne2
      | exact congrArg (stem ++ ·) (by decide)

theorem claim_C2_amended_witness :
    subOccurs dotPdfLower ['m', 'y', '.', 'f', 'i', 'l', 'e'] = false
    ∧ subOccurs dotPdfUpper ['m', 'y', '.', 'f', 'i', 'l', 'e'] = false
    ∧ pdfCasing false false false = dotPdfLower
    ∧ outputName (['m', 'y', '.', 'f', 'i', 'l', 'e'] ++ pdfCasing false false false) =
        ['m', 'y', '.', 'f', 'i', 'l', 'e'] ++ dotDocx :=
  ⟨by decide, by decide, by decide,
    (claim_C2_amended ['m', 'y', '.', 'f', 'i', 'l', 'e'] (by decide) (by decide)
      false false false).2.1 (Or.inl (by decide))⟩

/-- Claim C3 counterexample: with the transport get-file call raising and
the error-report send in the except clause raising too, the second
exception escapes the handler instead of the request terminating inside
it. -/
theorem claim_C3_counterexample :
    (handle_pdf docReport envEscape).2 = Except.error "net down" := rfl

/-- Claim C3 amended: every error raised in the try block is caught by the
handler, at most one failure message becomes visible to the user, and the
handler returns normally whenever the except clause's own failure-message
send succeeds; only a failure of that very send escapes the handler. -/
theorem claim_C3_amended (d : Doc) (env : Env) :
    visibleFailureCount (handle_pdf d env).1 ≤ 1
    ∧ (env.replyGenericError = Except.ok () → (handle_pdf d env).2 = Except.ok ())
    ∧ (∀ e, (handle_pdf d env).2 = Except.error e →
        env.replyGenericError = Except.error e) := by
  refine ⟨?_, ?_, ?_⟩
  · rcases handle_traces d env with ⟨c, h | h | h | h | h | h | h | h | h | h | h | h | h⟩ <;>
      rw [h] <;> cases c <;>
      simp [visibleFailureCount, failureKind, trWrongFormat, trTooLarge, trSuccess,
        trGetFileFail, trProcessingFail, trDownloadFail, trEditConvFail, trConvertFail,
        trEditCompFail, trSendDocFail, trDeleteFail]
  · intro hge
    unfold handle_pdf
    cases htb : tryBody d env with
    | mk tr res =>
      cases res with
      | ok u => simp
      | error e => simp [hge]
  · intro e he
    unfold handle_pdf at he
    cases htb : tryBody d env with
    | mk tr res =>
      rw [htb] at he
      cases res with
      | ok u => simp at he
      | error e2 =>
        cases hge : env.replyGenericError with
        | ok u => rw [hge] at he; simp at he
        | error e3 =>
          rw [hge] at he
          simp only at he
          exact he

theorem claim_C3_amended_witness :
    envGetFileFails.replyGenericError = Except.ok ()
    ∧ (handle_pdf docReport envGetFileFails).2 = Except.ok () :=
  ⟨rfl, (claim_C3_amended docReport envGetFileFails).2.1 rfl⟩

/-- Claim C4: validation checks run in a fixed order — the wrong-format
check first, the size check only afterwards — so a request with a wrong
extension is answered with the wrong-format message even when it is also
oversized, and a well-named oversized request gets the too-large message. -/
theorem claim_C4 (d : Doc) (env : Env) (hg : env.getFile = Except.ok ()) :
    (acceptsPdf d.file_name = false →
      (∃ b, Action.replyText MsgKind.wrongFormat b ∈ (handle_pdf d env).1)
      ∧ (∀ b, Action.replyText MsgKind.tooLarge b ∉ (handle_pdf d env).1))
    ∧ (acceptsPdf d.file_name = true → d.file_size > 19 * 1024 * 1024 →
      (∃ b, Action.replyText MsgKind.tooLarge b ∈ (handle_pdf d env).1)
      ∧ (∀ b, Action.replyText MsgKind.wrongFormat b ∉ (handle_pdf d env).1)) := by
  have hc := handle_cases d env
  constructor
  · intro hA0
    rcases hc with ⟨e, hgf, h⟩ | ⟨hgf, hA, hok, h⟩ | ⟨hgf, hA, he2, h⟩
      | ⟨hgf, hA, hS2, hok, h⟩ | ⟨hgf, hA, hS2, he2, h⟩
      | ⟨⟨hgf, hA, hS2⟩, he2, h⟩ | ⟨⟨hgf, hA, hS2⟩, he2, h⟩ | ⟨⟨hgf, hA, hS2⟩, he2, h⟩
      | ⟨⟨hgf, hA, hS2⟩, he2, h⟩ | ⟨⟨hgf, hA, hS2⟩, he2, h⟩ | ⟨⟨hgf, hA, hS2⟩, he2, h⟩
      | ⟨⟨hgf, hA, hS2⟩, he2, h⟩ | ⟨⟨hgf, hA, hS2⟩, h⟩
    · rw [hg] at hgf; simp at hgf
    · have htr : (handle_pdf d env).1 = trWrongFormat true := by rw [h]
      rw [htr]
      exact ⟨⟨true, by decide⟩, by decide⟩
    · rcases handledErr_trace d env _ h with h2 | h2 <;> rw [h2] <;>
        exact ⟨⟨false, by decide⟩, by decide⟩
    all_goals rw [hA0] at hA; simp at hA
  · intro hA1 hS0
    rcases hc with ⟨e, hgf, h⟩ | ⟨hgf, hA, hok, h⟩ | ⟨hgf, hA, he2, h⟩
      | ⟨hgf, hA, hS2, hok, h⟩ | ⟨hgf, hA, hS2, he2, h⟩
      | ⟨⟨hgf, hA, hS2⟩, he2, h⟩ | ⟨⟨hgf, hA, hS2⟩, he2, h⟩ | ⟨⟨hgf, hA, hS2⟩, he2, h⟩
      | ⟨⟨hgf, hA, hS2⟩, he2, h⟩ | ⟨⟨hgf, hA, hS2⟩, he2, h⟩ | ⟨⟨hgf, hA, hS2⟩, he2, h⟩
      | ⟨⟨hgf, hA, hS2⟩, he2, h⟩ | ⟨⟨hgf, hA, hS2⟩, h⟩
    · rw [hg] at hgf; simp at hgf
    · rw [hA1] at hA; simp at hA
    · rw [hA1] at hA; simp at hA
    · have htr : (handle_pdf d env).1 = trTooLarge true := by rw [h]
      rw [htr]
      exact ⟨⟨true, by decide⟩, by decide⟩
    · rcases handledErr_trace d env _ h with h2 | h2 <;> rw [h2] <;>
        exact ⟨⟨false, by decide⟩, by decide⟩
    all_goals exact absurd hS0 hS2

theorem claim_C4_witness :
    envAllOk.getFile = Except.ok ()
    ∧ acceptsPdf docBadBoth.file_name = false
    ∧ (∃ b, Action.replyText MsgKind.wrongFormat b ∈ (handle_pdf docBadBoth envAllOk).1)
    ∧ (∀ b, Action.replyText MsgKind.tooLarge b ∉ (handle_pdf docBadBoth envAllOk).1) :=
  ⟨rfl, by decide,
    ((claim_C4 docBadBoth envAllOk rfl).1 (by decide)).1,
    ((claim_C4 docBadBoth envAllOk rfl).1 (by decide)).2⟩

/-- Claim C5: a request rejected by validation — wrong extension or
oversized — terminates without downloading the content, without running the
conversion step (hence without creating any scratch file), and without any
document delivery. -/
theorem claim_C5 (d : Doc) (env : Env) (hg : env.getFile = Except.ok ())
    (hrej : acceptsPdf d.file_name = false ∨ d.file_size > 19 * 1024 * 1024) :
    (∀ b, Action.download b ∉ (handle_pdf d env).1)
    ∧ (∀ fs b, Action.convertAct fs b ∉ (handle_pdf d env).1)
    ∧ (∀ n b, Action.sendDocument n b ∉ (handle_pdf d env).1) := by
  rcases handle_cases d env with ⟨e, hgf, h⟩ | ⟨hgf, hA, hok, h⟩ | ⟨hgf, hA, he2, h⟩
    | ⟨hgf, hA, hS2, hok, h⟩ | ⟨hgf, hA, hS2, he2, h⟩
    | ⟨⟨hgf, hA, hS2⟩, he2, h⟩ | ⟨⟨hgf, hA, hS2⟩, he2, h⟩ | ⟨⟨hgf, hA, hS2⟩, he2, h⟩
    | ⟨⟨hgf, hA, hS2⟩, he2, h⟩ | ⟨⟨hgf, hA, hS2⟩, he2, h⟩ | ⟨⟨hgf, hA, hS2⟩, he2, h⟩
    | ⟨⟨hgf, hA, hS2⟩, he2, h⟩ | ⟨⟨hgf, hA, hS2⟩, h⟩
  · rw [hg] at hgf; simp at hgf
  · have htr : (handle_pdf d env).1 = trWrongFormat true := by rw [h]
    rw [htr]
    exact ⟨fun b => by simp [trWrongFormat], fun fs b => by simp [trWrongFormat],
      fun n b => by simp [trWrongFormat]⟩
  · rcases handledErr_trace d env _ h with h2 | h2 <;> rw [h2] <;>
      exact ⟨fun b => by simp [trWrongFormat], fun fs b => by simp [trWrongFormat],
        fun n b => by simp [trWrongFormat]⟩
  · have htr : (handle_pdf d env).1 = trTooLarge true := by rw [h]
    rw [htr]
    exact ⟨fun b => by simp [trTooLarge], fun fs b => by simp [trTooLarge],
      fun n b => by simp [trTooLarge]⟩
  · rcases handledErr_trace d env _ h with h2 | h2 <;> rw [h2] <;>
      exact ⟨fun b => by simp [trTooLarge], fun fs b => by simp [trTooLarge],
        fun n b => by simp [trTooLarge]⟩
  all_goals
    rcases hrej with hA0 | hS0
    · rw [hA0] at hA; simp at hA
    · exact absurd hS0 hS2

theorem claim_C5_witness :
    envAllOk.getFile = Except.ok ()
    ∧ (acceptsPdf docBadBoth.file_name = false
        ∨ docBadBoth.file_size > 19 * 1024 * 1024)
    ∧ (∀ b, Action.download b ∉ (handle_pdf docBadBoth envAllOk).1) :=
  ⟨rfl, Or.inl (by decide),
    (claim_C5 docBadBoth envAllOk rfl (Or.inl (by decide))).1⟩

/-- Claim C6 counterexample: if every transport operation succeeds except
deleting the status message after the document was delivered, the request
produces both a successful delivery and a visible failure message. -/
theorem claim_C6_counterexample :
    successDeliveryCount (handle_pdf docReport envDeleteFails).1 = 1
    ∧ visibleFailureCount (handle_pdf docReport envDeleteFails).1 = 1 := by decide

/-- Claim C6 amended: per request at most one success delivery and at most
one visible failure message occur, and both can occur together only when a
post-delivery transport action (deleting the status message) fails, in
which case the failure message follows an already-delivered success. -/
theorem claim_C6_amended (d : Doc) (env : Env) :
    successDeliveryCount (handle_pdf d env).1 ≤ 1
    ∧ visibleFailureCount (handle_pdf d env).1 ≤ 1
    ∧ (env.deleteProcessing = Except.ok () →
        ¬ (successDeliveryCount (handle_pdf d env).1 = 1
            ∧ visibleFailureCount (handle_pdf d env).1 = 1)) := by
  refine ⟨?_, ?_, ?_⟩
  · rcases handle_traces d env with ⟨c, h | h | h | h | h | h | h | h | h | h | h | h | h⟩ <;>
      rw [h] <;> cases c <;>
      simp [successDeliveryCount, trWrongFormat, trTooLarge, trSuccess, trGetFileFail,
        trProcessingFail, trDownloadFail, trEditConvFail, trConvertFail, trEditCompFail,
        trSendDocFail, trDeleteFail]
  · rcases handle_traces d env with ⟨c, h | h | h | h | h | h | h | h | h | h | h | h | h⟩ <;>
      rw [h] <;> cases c <;>
      simp [visibleFailureCount, failureKind, trWrongFormat, trTooLarge, trSuccess,
        trGetFileFail, trProcessingFail, trDownloadFail, trEditConvFail, trConvertFail,
        trEditCompFail, trSendDocFail, trDeleteFail]
  · intro hdp ⟨h1, h2⟩
    rcases handle_cases d env with ⟨e, hgf, h⟩ | ⟨hgf, hA, hok, h⟩ | ⟨hgf, hA, he2, h⟩
      | ⟨hgf, hA, hS2, hok, h⟩ | ⟨hgf, hA, hS2, he2, h⟩
      | ⟨hAcc, he2, h⟩ | ⟨hAcc, he2, h⟩ | ⟨hAcc, he2, h⟩
      | ⟨hAcc, he2, h⟩ | ⟨hAcc, he2, h⟩ | ⟨hAcc, he2, h⟩
      | ⟨hAcc, he2, h⟩ | ⟨hAcc, h⟩
    · rcases handledErr_trace d env _ h with h3 | h3 <;> rw [h3] at h1 <;>
        simp [successDeliveryCount, trGetFileFail] at h1
    · rw [h] at h1
      simp [successDeliveryCount, trWrongFormat] at h1
    · rcases handledErr_trace d env _ h with h3 | h3 <;> rw [h3] at h1 <;>
        simp [successDeliveryCount, trWrongFormat] at h1
    · rw [h] at h1
      simp [successDeliveryCount, trTooLarge] at h1
    · rcases handledErr_trace d env _ h with h3 | h3 <;> rw [h3] at h1 <;>
        simp [successDeliveryCount, trTooLarge] at h1
    · rcases handledErr_trace d env _ h with h3 | h3 <;> rw [h3] at h1 <;>
        simp [successDeliveryCount, trProcessingFail] at h1
    · rcases handledErr_trace d env _ h with h3 | h3 <;> rw [h3] at h1 <;>
        simp [successDeliveryCount, trDownloadFail] at h1
    · rcases handledErr_trace d env _ h with h3 | h3 <;> rw [h3] at h1 <;>
        simp [successDeliveryCount, trEditConvFail] at h1
    · rcases handledErr_trace d env _ h with h3 | h3 <;> rw [h3] at h1 <;>
        simp [successDeliveryCount, trConvertFail] at h1
    · rcases handledErr_trace d env _ h with h3 | h3 <;> rw [h3] at h1 <;>
        simp [successDeliveryCount, trEditCompFail] at h1
    · rcases handledErr_trace d env _ h with h3 | h3 <;> rw [h3] at h1 <;>
        simp [successDeliveryCount, trSendDocFail] at h1
    · rcases he2 with ⟨e, he⟩
      rw [hdp] at he
      simp at he
    · rw [h] at h2
      simp [visibleFailureCount, failureKind, trSuccess] at h2

theorem claim_C6_amended_witness :
    envAllOk.deleteProcessing = Except.ok ()
    ∧ ¬ (successDeliveryCount (handle_pdf docReport envAllOk).1 = 1
        ∧ visibleFailureCount (handle_pdf docReport envAllOk).1 = 1) :=
  ⟨rfl, (claim_C6_amended docReport envAllOk).2.2 rfl⟩

/-- Claim C7: the visible progress events of a request always form a
prefix of (processing as a fresh message, converting as an edit, complete
as an edit) in this order, so each later event replaces the one status
message; and when validation passes and every external operation succeeds,
exactly this full ordered sequence is shown. -/
theorem claim_C7 (d : Doc) (env : Env) :
    (visibleProgress (handle_pdf d env).1).isPrefixOf
      [Action.replyText MsgKind.processing true, Action.editText MsgKind.converting true,
        Action.editText MsgKind.complete true] = true
    ∧ (Accepted d env → env.replyProcessing = Except.ok () →
        (∃ bs, env.download = Except.ok bs) → env.editConverting = Except.ok () →
        (∃ bytes, env.engine = EngineResult.ok bytes) → env.editComplete = Except.ok () →
        env.replyDocument = Except.ok () → env.deleteProcessing = Except.ok () →
        visibleProgress (handle_pdf d env).1 =
          [Action.replyText MsgKind.processing true, Action.editText MsgKind.converting true,
            Action.editText MsgKind.complete true]) := by
  constructor
  · rcases handle_traces d env with ⟨c, h | h | h | h | h | h | h | h | h | h | h | h | h⟩ <;>
      rw [h] <;> cases c <;>
      simp [visibleProgress, progressKind, List.isPrefixOf, trWrongFormat, trTooLarge,
        trSuccess, trGetFileFail, trProcessingFail, trDownloadFail, trEditConvFail,
        trConvertFail, trEditCompFail, trSendDocFail, trDeleteFail]
  · intro hAcc hrp hdl hec heng hecp hrd hdp
    rcases handle_cases d env with ⟨e, hgf, h⟩ | ⟨hgf, hA, hok, h⟩ | ⟨hgf, hA, he2, h⟩
      | ⟨hgf, hA, hS2, hok, h⟩ | ⟨hgf, hA, hS2, he2, h⟩
      | ⟨hAcc2, he2, h⟩ | ⟨hAcc2, he2, h⟩ | ⟨hAcc2, he2, h⟩
      | ⟨hAcc2, he2, h⟩ | ⟨hAcc2, he2, h⟩ | ⟨hAcc2, he2, h⟩
      | ⟨hAcc2, he2, h⟩ | ⟨hAcc2, h⟩
    · rw [hAcc.1] at hgf; simp at hgf
    · rw [hAcc.2.1] at hA; simp at hA
    · rw [hAcc.2.1] at hA; simp at hA
    · exact absurd hS2 hAcc.2.2
    · exact absurd hS2 hAcc.2.2
    · rcases he2 with ⟨e, he⟩; rw [hrp] at he; simp at he
    · rcases he2 with ⟨e, he⟩
      rcases hdl with ⟨bs, hdl⟩
      rw [hdl] at he; simp at he
    · rcases he2 with ⟨e, he⟩; rw [hec] at he; simp at he
    · rcases he2 with ⟨e, he⟩
      rcases heng with ⟨bytes, heng⟩
      rcases he with he | he <;> rw [heng] at he <;> simp at he
    · rcases he2 with ⟨e, he⟩; rw [hecp] at he; simp at he
    · rcases he2 with ⟨e, he⟩; rw [hrd] at he; simp at he
    · rcases he2 with ⟨e, he⟩; rw [hdp] at he; simp at he
    · rw [h]
      simp [visibleProgress, progressKind, trSuccess]

theorem claim_C7_witness :
    Accepted docReport envAllOk
    ∧ visibleProgress (handle_pdf docReport envAllOk).1 =
      [Action.replyText MsgKind.processing true, Action.editText MsgKind.converting true,
        Action.editText MsgKind.complete true] :=
  ⟨⟨rfl, by decide, by decide⟩,
    (claim_C7 docReport envAllOk).2 ⟨rfl, by decide, by decide⟩ rfl ⟨[], rfl⟩ rfl
      ⟨[], rfl⟩ rfl rfl rfl⟩

/-- Claim C10: the handler's very first action is the transport get-file
call, before any validation check; if that call fails, the request — even
one that validation would have rejected — is answered only with the generic
conversion-error message, and no rejection-specific message is sent. -/
theorem claim_C10 (d : Doc) (env : Env) :
    (∃ (b : Bool) (tl : List Action), (handle_pdf d env).1 = Action.getFile b :: tl)
    ∧ (∀ e, env.getFile = Except.error e →
        (∀ k b, Action.replyText k b ∈ (handle_pdf d env).1 → k = MsgKind.genericError)
        ∧ (∃ b, Action.replyText MsgKind.genericError b ∈ (handle_pdf d env).1)) := by
  constructor
  · rcases handle_traces d env with ⟨c, h | h | h | h | h | h | h | h | h | h | h | h | h⟩ <;>
      rw [h] <;>
      simp [trWrongFormat, trTooLarge, trSuccess, trGetFileFail, trProcessingFail,
        trDownloadFail, trEditConvFail, trConvertFail, trEditCompFail, trSendDocFail,
        trDeleteFail]
  · intro e hgf
    rcases handle_cases d env with ⟨e2, hgf2, h⟩ | ⟨hgf2, hA, hok, h⟩ | ⟨hgf2, hA, he2, h⟩
      | ⟨hgf2, hA, hS2, hok, h⟩ | ⟨hgf2, hA, hS2, he2, h⟩
      | ⟨⟨hgf2, hA, hS2⟩, he2, h⟩ | ⟨⟨hgf2, hA, hS2⟩, he2, h⟩ | ⟨⟨hgf2, hA, hS2⟩, he2, h⟩
      | ⟨⟨hgf2, hA, hS2⟩, he2, h⟩ | ⟨⟨hgf2, hA, hS2⟩, he2, h⟩ | ⟨⟨hgf2, hA, hS2⟩, he2, h⟩
      | ⟨⟨hgf2, hA, hS2⟩, he2, h⟩ | ⟨⟨hgf2, hA, hS2⟩, h⟩
    · rcases handledErr_trace d env _ h with h2 | h2
      · rw [h2]
        constructor
        · intro k b hm
          simp [trGetFileFail] at hm
          exact hm.1
        · exact ⟨true, by simp [trGetFileFail]⟩
      · rw [h2]
        constructor
        · intro k b hm
          simp [trGetFileFail] at hm
          exact hm.1
        · exact ⟨false, by simp [trGetFileFail]⟩
    all_goals rw [hgf] at hgf2; simp at hgf2

theorem claim_C10_witness :
    envGetFileFails.getFile = Except.error "boom"
    ∧ (∃ b, Action.replyText MsgKind.genericError b ∈
        (handle_pdf docReport envGetFileFails).1) :=
  ⟨rfl, ((claim_C10 docReport envGetFileFails).2 "boom" rfl).2⟩

/-- Claim C8: the liveness handler answers every GET request, on any path,
with status 200, content type text/plain and the exact body
"Bot is alive!", independently of any request state; the listening port is
the value of the PORT environment variable and defaults to 10000. -/
theorem claim_C8 :
    (∀ path : String, do_GET path =
      [HttpStep.sendResponse 200, HttpStep.sendHeader "Content-type" "text/plain",
        HttpStep.endHeaders, HttpStep.writeBody "Bot is alive!"])
    ∧ healthPort none = Except.ok 10000
    ∧ (∀ s n, pyInt s = some n → healthPort (some s) = Except.ok n) := by
  refine ⟨fun path => rfl, rfl, fun s n h => ?_⟩
  simp only [healthPort]
  rw [h]

theorem claim_C8_witness :
    pyInt ['8', '0', '8', '0'] = some 8080
    ∧ healthPort (some ['8', '0', '8', '0']) = Except.ok 8080 :=
  ⟨by decide, claim_C8.2.2 ['8', '0', '8', '0'] 8080 (by decide)⟩

end PdfBot
